import Mathlib

/-!
Verification of the Edumimic session-scoring pipeline
(`src/utils/scoringSystem.ts` and `src/components/FaceAnalysis.tsx`).

Modelling conventions:
* JavaScript numbers are modelled exactly as rationals (`ℚ`); all the
  scoring arithmetic is weighted sums and clamps of small decimal
  constants, so no floating-point behaviour is load-bearing for the
  properties below.
* A JavaScript object `{ [key: string]: number }` (an emotion frame) is
  modelled as an association list `List (String × ℚ)`; `emotion.k || 0`
  becomes lookup-with-default-0 (both map an absent key and the value 0
  to 0), and `Object.keys(emotion).length > 0` becomes non-emptiness of
  the list.
* `String.prototype.split(regex)` over a one-character-class-plus regex
  (`/\s+/`, `/[.!?]+/`) is modelled by `splitRuns`, which reproduces the
  JavaScript field semantics: maximal separator runs delimit fields, a
  leading or trailing run contributes an empty boundary field, and the
  empty string yields the single field `""`.
* `transcript.match(pattern)` for the fixed alternation-of-literals
  regexes is modelled by `countMatches` (leftmost, non-overlapping,
  alternatives tried in order at each position), with the `i` flag
  modelled by lowercasing the subject and keeping the literals in lower
  case; a null-vs-non-null `match` test becomes `matchesAny`.
* `Math.sqrt` (used for the RMS in `analyzeVoiceQuality`) is an external
  numeric primitive; it is passed in as a function parameter `sqrtQ`.
  Audio decoding (`decodeAudioData`) is effectful and may throw, so the
  decoded channel data is passed as an `Except` value.
* The remote Gemini call in `evaluateSession` is effectful; its outcome
  (a parsed analysis, or a thrown transport/parse error) is passed to
  the model of `evaluateSession` as an `Except` value, together with a
  flag saying whether a generative-AI handle (`this.genAI`) is present.
-/

/-- `Math.max(0, Math.min(1, x))`, the clamp used throughout the scoring code. -/
def clamp01 (x : ℚ) : ℚ := max 0 (min 1 x)

/-- An emotion frame `{ [key: string]: number }`: an association list from
emotion labels to probabilities. -/
abbrev EmotionFrame := List (String × ℚ)

/-- `emotion.k || 0`: look a key up, defaulting to `0` when absent. -/
def getE (e : EmotionFrame) (k : String) : ℚ := (e.lookup k).getD 0

/-- The per-frame engagement used inside `calculateFaceEngagement`
(`scoringSystem.ts` lines 101–107):
`clamp01((happy + surprised*0.5)*0.8 + neutral*0.4 - (sad+angry+disgusted+fearful)*0.3)`. -/
def frameEngagement (e : EmotionFrame) : ℚ :=
  let positive := getE e "happy" + getE e "surprised" * 0.5
  let neutral := getE e "neutral"
  let negative := getE e "sad" + getE e "angry" + getE e "disgusted" + getE e "fearful"
  clamp01 (positive * 0.8 + neutral * 0.4 - negative * 0.3)

/-- `ComprehensiveScoring.calculateFaceEngagement` (`scoringSystem.ts`
lines 93–115): returns 0.5 on an empty history; otherwise accumulates
`frameEngagement` over the frames with at least one key
(`Object.keys(emotion).length > 0`) and averages, returning 0.5 when no
frame qualified. -/
def calculateFaceEngagement (emotions : List EmotionFrame) : ℚ :=
  if emotions.length = 0 then 0.5
  else
    let acc := emotions.foldl
      (fun acc e => if 0 < e.length then (acc.1 + frameEngagement e, acc.2 + 1) else acc)
      ((0 : ℚ), (0 : ℕ))
    if 0 < acc.2 then acc.1 / (acc.2 : ℚ) else 0.5

/-- The claim's reading of `calculateFaceEngagement`: the mean of
`frameEngagement` over exactly those frames that have at least one
NON-ZERO emotion value, and 0.5 when no such frame exists. -/
def faceEngagementClaim (emotions : List EmotionFrame) : ℚ :=
  let valid := emotions.filter fun e => e.any fun p => decide (p.2 ≠ 0)
  if 0 < valid.length then (valid.map frameEngagement).sum / (valid.length : ℚ) else 0.5

/-- The amended reading of `calculateFaceEngagement`: the mean of
`frameEngagement` over exactly those frames that have at least one
emotion KEY (even if every value is zero), and 0.5 when no such frame
exists (in particular for the empty sequence). -/
def faceEngagementAmended (emotions : List EmotionFrame) : ℚ :=
  let valid := emotions.filter fun e => decide (0 < e.length)
  if 0 < valid.length then (valid.map frameEngagement).sum / (valid.length : ℚ) else 0.5

/-- `calculateEngagementScore` in `FaceAnalysis.tsx` (lines 120–139), the
live per-frame formula:
`clamp01(happy*0.8 + neutral*0.6 + surprised*0.4 - (sad*0.3 + angry*0.4 + disgusted*0.5 + fearful*0.3))`. -/
def calculateEngagementScore (emotions : EmotionFrame) : ℚ :=
  let positive := getE emotions "happy"
  let neutral := getE emotions "neutral"
  let surprised := getE emotions "surprised"
  let sad := getE emotions "sad"
  let angry := getE emotions "angry"
  let disgusted := getE emotions "disgusted"
  let fearful := getE emotions "fearful"
  clamp01 ((positive * 0.8 + neutral * 0.6 + surprised * 0.4) -
    (sad * 0.3 + angry * 0.4 + disgusted * 0.5 + fearful * 0.3))

/-- `haystack.includes(needle)` on character lists: the needle occurs as
a contiguous substring (the empty needle always occurs). -/
def isInfixList (needle : List Char) : List Char → Bool
  | [] => needle.isEmpty
  | c :: rest => needle.isPrefixOf (c :: rest) || isInfixList needle rest

/-- The whitespace class `\s` of the splitting regexes, for the ASCII
range the transcripts live in. -/
def isWs (c : Char) : Bool :=
  c = ' ' || c = '\t' || c = '\n' || c = '\r' || c = '\x0b' || c = '\x0c'

/-- The sentence-delimiter class `[.!?]` of the sentence-splitting regex. -/
def isSentenceDelim (c : Char) : Bool := c = '.' || c = '!' || c = '?'

/-- `String.prototype.toLowerCase()` on the ASCII range. -/
def jsToLower (s : String) : String := ⟨s.data.map Char.toLower⟩

/-- JavaScript `s.split(/C+/)` for a character class `C`: fields are the
(possibly empty) stretches between maximal separator runs; a leading or
trailing run contributes an empty boundary field; the empty string gives
the single field `""`. -/
def splitRunsAux (p : Char → Bool) : ℕ → List Char → List (List Char)
  | _, [] => [[]]
  | 0, _ :: _ => [[]]
  | fuel + 1, c :: rest =>
    if p c then [] :: splitRunsAux p fuel (rest.dropWhile p)
    else
      match splitRunsAux p fuel rest with
      | [] => [[c]]
      | f :: fs => (c :: f) :: fs

/-- See `splitRunsAux`; the fuel is the subject length, which suffices
because every step of the scan consumes at least one character. -/
def splitRuns (p : Char → Bool) (l : List Char) : List (List Char) :=
  splitRunsAux p l.length l

/-- `transcript.split(/\s+/)` as a list of character-list fields. -/
def jsSplitWs (s : String) : List (List Char) := splitRuns isWs s.toList

/-- `transcript.split(/\s+/).length`, the word count used by
`calculateInteractionScore` and `analyzeContentLocally`. -/
def jsWordCount (s : String) : ℕ := (jsSplitWs s).length

/-- `transcript.split(/[.!?]+/).filter(s => s.trim().length > 0).length`:
the number of sentence fields containing a non-whitespace character. -/
def sentenceCount (s : String) : ℕ :=
  ((splitRuns isSentenceDelim s.toList).filter fun f => f.any fun c => !(isWs c)).length

/-- Count of matches of an alternation-of-literals regex with the `g`
flag: scan left to right; at each position try the alternatives in
order; a match is counted and skipped, otherwise advance one character.
The fuel argument is the length of the subject, which suffices because
every step consumes at least one character. -/
def countMatchesAux (alts : List (List Char)) : ℕ → List Char → ℕ
  | _, [] => 0
  | 0, _ :: _ => 0
  | fuel + 1, c :: rest =>
    match alts.find? (fun a => !a.isEmpty && a.isPrefixOf (c :: rest)) with
    | some a => 1 + countMatchesAux alts fuel ((c :: rest).drop a.length)
    | none => countMatchesAux alts fuel rest

/-- `(transcript.match(regex) || []).length` for an alternation of the
literals `alts` with the `g` flag. Case-insensitivity is obtained by the
caller lowercasing the subject. -/
def countMatches (alts : List String) (s : String) : ℕ :=
  countMatchesAux (alts.map String.toList) s.length s.toList

/-- `transcript.match(regex) !== null` for an alternation of literal
strings, matched case-insensitively against the transcript. -/
def matchesAny (transcript : String) (alts : List String) : Bool :=
  alts.any fun a => isInfixList a.toList (jsToLower transcript).toList

/-- The `VoiceQuality` record of `scoringSystem.ts` (lines 339–344). -/
structure VoiceQuality where
  clarity : ℚ
  score : String
  volume : ℚ
  confidence : ℚ
deriving DecidableEq

/-- The `SessionData` record of `scoringSystem.ts` (lines 13–19). The
`voiceQualities` field is `any[]` in the source and its entries are read
through `quality?.clarity || 0`, so entries are modelled as optional. -/
structure SessionData where
  transcript : String
  emotions : List EmotionFrame
  voiceQualities : List (Option VoiceQuality)
  topic : String
  duration : ℚ

/-- The `{score, feedback, suggestions}` result of the two content
analyzers (`analyzeContentWithGemini` / `analyzeContentLocally`). -/
structure ContentAnalysis where
  score : ℚ
  feedback : String
  suggestions : List String
deriving DecidableEq

/-- The `EvaluationMetrics` record of `scoringSystem.ts` (lines 3–11). -/
structure EvaluationMetrics where
  faceEngagement : ℚ
  voiceClarity : ℚ
  contentQuality : ℚ
  interactionScore : ℚ
  overallScore : ℚ
  feedback : String
  suggestions : List String
deriving DecidableEq

/-- `ComprehensiveScoring.calculateVoiceClarity` (`scoringSystem.ts`
lines 117–124): 0.5 on an empty history, otherwise the clamp of the
average of `quality?.clarity || 0`. -/
def calculateVoiceClarity (voiceQualities : List (Option VoiceQuality)) : ℚ :=
  if voiceQualities.length = 0 then 0.5
  else
    let avgClarity :=
      (voiceQualities.foldl
        (fun sum q => sum + (match q with | some v => v.clarity | none => 0)) 0) /
        (voiceQualities.length : ℚ)
    clamp01 avgClarity

/-- The four interaction-pattern regexes of `calculateInteractionScore`
(`scoringSystem.ts` lines 148–153): questions, explanations, structure
markers, example markers, each an alternation of literals. -/
def interactionPatterns : List (List String) :=
  [["?"],
   ["because", "therefore", "thus", "so", "hence"],
   ["first", "second", "third", "next", "then", "finally"],
   ["for example", "such as", "like", "including"]]

/-- `ComprehensiveScoring.calculateInteractionScore` (`scoringSystem.ts`
lines 126–164). -/
def calculateInteractionScore (sd : SessionData) : ℚ :=
  if sd.transcript = "" ∨ sd.duration = 0 then 0
  else
    let wordCount : ℕ := jsWordCount sd.transcript
    let wordsPerMinute : ℚ := ((wordCount : ℚ) / sd.duration) * 60
    let wpmScore : ℚ :=
      if 120 ≤ wordsPerMinute ∧ wordsPerMinute ≤ 180 then 1
      else if 100 ≤ wordsPerMinute ∧ wordsPerMinute ≤ 200 then 0.8
      else if 80 ≤ wordsPerMinute ∧ wordsPerMinute ≤ 220 then 0.6
      else 0.4
    let interactionComplexity : ℕ :=
      (interactionPatterns.map fun alts => countMatches alts (jsToLower sd.transcript)).sum
    let complexityScore : ℚ := min 1 ((interactionComplexity : ℚ) / 10)
    wpmScore * 0.6 + complexityScore * 0.4

/-- The claim's reference band function: 1.0 on [120,180], else 0.8 on
[100,200], else 0.6 on [80,220], else 0.4 — narrowest band first. -/
def wpmScoreSpec (wpm : ℚ) : ℚ :=
  if 120 ≤ wpm ∧ wpm ≤ 180 then 1
  else if 100 ≤ wpm ∧ wpm ≤ 200 then 0.8
  else if 80 ≤ wpm ∧ wpm ≤ 220 then 0.6
  else 0.4

/-- The claim's reference complexity score: `min(1, patternMatchCount/10)`
over the four fixed case-insensitive pattern classes. -/
def complexityScoreSpec (transcript : String) : ℚ :=
  min 1
    ((((interactionPatterns.map fun alts => countMatches alts (jsToLower transcript)).sum : ℕ) : ℚ) / 10)

/-- The claim's reference definition of the interaction score: 0 when the
transcript is empty or the duration is 0; otherwise
`wpmScore(wordCount/duration*60)*0.6 + complexityScore*0.4`. -/
def interactionScoreSpec (sd : SessionData) : ℚ :=
  if sd.transcript = "" ∨ sd.duration = 0 then 0
  else
    wpmScoreSpec (((jsWordCount sd.transcript : ℚ) / sd.duration) * 60) * 0.6 +
      complexityScoreSpec sd.transcript * 0.4

/-- The four educational-language pattern classes of
`analyzeContentLocally` (`scoringSystem.ts` lines 265–270), each an
alternation of literals matched case-insensitively. -/
def eduPatterns : List (List String) :=
  [["explain", "definition", "means", "refers to"],
   ["example", "instance", "such as"],
   ["because", "reason", "cause"],
   ["important", "key", "main", "primary"]]

/-- `topic.toLowerCase().split(/\s+/)` of `analyzeContentLocally`. -/
def topicKeywordsOf (topic : String) : List (List Char) :=
  splitRuns isWs (jsToLower topic).toList

/-- The keyword-match count of `analyzeContentLocally` (lines 250–254):
the number of topic keywords that occur as substrings of the lowercased
transcript. -/
def keywordMatchCount (transcript topic : String) : ℕ :=
  ((topicKeywordsOf topic).filter fun k =>
    isInfixList k (jsToLower transcript).toList).length

/-- The feedback bucket selection of `analyzeContentLocally`
(lines 282–291). -/
def localFeedback (contentScore : ℚ) : String :=
  if 0.8 ≤ contentScore then
    "Excellent presentation with clear explanations and good topic coverage."
  else if 0.6 ≤ contentScore then
    "Good presentation with room for improvement in detail and clarity."
  else if 0.4 ≤ contentScore then
    "Adequate presentation but needs more comprehensive coverage."
  else
    "Presentation needs significant improvement in content and delivery."

/-- `ComprehensiveScoring.analyzeContentLocally` (`scoringSystem.ts`
lines 219–305). -/
def analyzeContentLocally (sd : SessionData) : ContentAnalysis :=
  if sd.transcript = "" then
    { score := 0.2
      feedback := "No speech detected during the session."
      suggestions := ["Ensure microphone is working", "Speak clearly and loudly"] }
  else
    let transcript := sd.transcript
    let wordCount := jsWordCount transcript
    let sentences := sentenceCount transcript
    let base : ℚ := 0.5
    let afterWordCount : ℚ × List String :=
      if wordCount < 50 then (base - 0.2, ["Provide more detailed explanations"])
      else if 500 < wordCount then (base + 0.1, [])
      else (base, [])
    let keywordMatches := keywordMatchCount transcript sd.topic
    let relevanceScore : ℚ := (keywordMatches : ℚ) / ((topicKeywordsOf sd.topic).length : ℚ)
    let afterRelevance := afterWordCount.1 + relevanceScore * 0.3
    let afterStructure := if 3 < sentences then afterRelevance + 0.1 else afterRelevance
    let educationalScore : ℚ :=
      (((eduPatterns.filter fun alts => matchesAny transcript alts).length : ℕ) : ℚ) * 0.05
    let contentScore := clamp01 (afterStructure + educationalScore)
    let suggestions :=
      afterWordCount.2 ++
        (if relevanceScore < 0.5 then ["Stay more focused on the main topic"] else []) ++
        (if wordCount < 100 then ["Provide more detailed explanations"] else []) ++
        (if !(matchesAny transcript ["example", "instance"]) then
          ["Include examples to illustrate your points"] else [])
    { score := contentScore, feedback := localFeedback contentScore, suggestions := suggestions }

/-- `ComprehensiveScoring.calculateOverallScore` (`scoringSystem.ts`
lines 307–326), with the fixed weights 0.2 / 0.25 / 0.35 / 0.2. -/
def calculateOverallScore (faceEngagement voiceClarity contentQuality interactionScore : ℚ) : ℚ :=
  faceEngagement * 0.2 + voiceClarity * 0.25 +
    contentQuality * 0.35 + interactionScore * 0.2

/-- `ComprehensiveScoring.getDefaultMetrics` (`scoringSystem.ts`
lines 328–338): the fixed all-0.5 default metrics object. -/
def getDefaultMetrics : EvaluationMetrics :=
  { faceEngagement := 0.5
    voiceClarity := 0.5
    contentQuality := 0.5
    interactionScore := 0.5
    overallScore := 0.5
    feedback := "Unable to complete full evaluation due to technical issues."
    suggestions := ["Ensure camera and microphone permissions are granted",
      "Try again with better lighting"] }

/-- `ComprehensiveScoring.evaluateSession` (`scoringSystem.ts`
lines 30–91). `hasGenAI` is whether `this.genAI` is non-null after the
optional initialization, and `remote` is the outcome of the awaited
`analyzeContentWithGemini` call: a parsed analysis, or the error it
threw (transport failure or malformed JSON). The remote branch is
entered only when a handle is present AND the transcript is truthy
(non-empty); a thrown remote error is caught and replaced by
`analyzeContentLocally`. -/
def evaluateSession (sd : SessionData) (hasGenAI : Bool)
    (remote : Except String ContentAnalysis) : EvaluationMetrics :=
  let faceEngagement := calculateFaceEngagement sd.emotions
  let voiceClarity := calculateVoiceClarity sd.voiceQualities
  let interactionScore := calculateInteractionScore sd
  let content : ContentAnalysis :=
    if hasGenAI = true ∧ sd.transcript ≠ "" then
      match remote with
      | .ok a => a
      | .error _ => analyzeContentLocally sd
    else analyzeContentLocally sd
  let overallScore :=
    calculateOverallScore faceEngagement voiceClarity content.score interactionScore
  { faceEngagement := faceEngagement
    voiceClarity := voiceClarity
    contentQuality := content.score
    interactionScore := interactionScore
    overallScore := overallScore
    feedback := content.feedback
    suggestions := content.suggestions }

/-- `analyzeVoiceQuality` (`scoringSystem.ts` lines 346–421). `sqrtQ` is
the external `Math.sqrt` primitive; `decoded` is the outcome of
`decodeAudioData` (the mono channel data, or the decode error it threw,
which the source catches and turns into the sentinel record). -/
def analyzeVoiceQuality (sqrtQ : ℚ → ℚ) (decoded : Except String (List ℚ)) : VoiceQuality :=
  match decoded with
  | .error _ => { clarity := 0, score := "Error", volume := 0, confidence := 0 }
  | .ok channelData =>
    let sumSquares := (channelData.map fun x => x * x).sum
    let maxAmplitude := channelData.foldl (fun m x => max m |x|) 0
    let silenceFrames := (channelData.filter fun x => decide (|x| < 0.001)).length
    let n : ℚ := (channelData.length : ℚ)
    let rms := sqrtQ (sumSquares / n)
    let silenceRatio : ℚ := (silenceFrames : ℚ) / n
    let volumeScore := min 1 (rms * 20)
    let snrScore := min 1 ((maxAmplitude - rms) * 10)
    let consistencyScore := max 0 (1 - silenceRatio * 2)
    let clarityScore := volumeScore * 0.4 + snrScore * 0.3 + consistencyScore * 0.3
    let confidence := clarityScore
    let scoreLabel :=
      if 0.8 < clarityScore then "Excellent"
      else if 0.6 < clarityScore then "Good"
      else if 0.4 < clarityScore then "Fair"
      else if 0.2 < clarityScore then "Poor"
      else "Very Poor"
    { clarity := clarityScore, score := scoreLabel, volume := volumeScore,
      confidence := confidence }

/-- The fixed sample transcript of the C3 scenario. -/
def sampleTranscript : String := "The cat sat. The cat ran. Because it was happy."

/-- The fixed C3 session: the sample transcript with topic "cats". -/
def sampleSession : SessionData :=
  { transcript := sampleTranscript
    emotions := []
    voiceQualities := []
    topic := "cats"
    duration := 30 }

/-- A session with an empty transcript, for the no-speech scenario. -/
def emptyTranscriptSession : SessionData :=
  { transcript := ""
    emotions := []
    voiceQualities := []
    topic := "cats"
    duration := 30 }

/-- The closed set of emotion labels of an `EmotionFrame`. -/
def emotionKeys : List String :=
  ["neutral", "happy", "sad", "angry", "fearful", "disgusted", "surprised"]

lemma clamp01_nonneg (x : ℚ) : 0 ≤ clamp01 x := le_max_left 0 _

lemma clamp01_le_one (x : ℚ) : clamp01 x ≤ 1 :=
  max_le (by norm_num) (min_le_left 1 x)

lemma faceFold_eq (l : List EmotionFrame) (s : ℚ) (n : ℕ) :
    l.foldl
      (fun acc e => if 0 < e.length then (acc.1 + frameEngagement e, acc.2 + 1) else acc)
      (s, n)
      = (s + ((l.filter fun e => decide (0 < e.length)).map frameEngagement).sum,
         n + (l.filter fun e => decide (0 < e.length)).length) := by
  induction l generalizing s n with
  | nil => simp
  | cons e rest ih =>
    by_cases he : 0 < e.length
    · simp only [List.foldl_cons, if_pos he, ih, List.filter_cons,
        decide_eq_true he, if_true, List.map_cons, List.sum_cons, List.length_cons,
        Prod.mk.injEq]
      constructor
      · ring
      · omega
    · simp only [List.foldl_cons, if_neg he, ih, List.filter_cons]
      simp [he]

lemma getE_happy0 (k : String) : getE [("happy", 0)] k = 0 := by
  unfold getE
  by_cases hk : k = "happy"
  · subst hk; rfl
  · simp [List.lookup_cons, beq_false_of_ne hk]

lemma frameEngagement_happy0 : frameEngagement [("happy", 0)] = 0 := by
  unfold frameEngagement clamp01
  simp only [getE_happy0]
  norm_num [min_def, max_def]

lemma analyzeContentLocally_sample_score :
    (analyzeContentLocally sampleSession).score = 0.35 := by
  have hne : ¬(sampleSession.transcript = "") := by decide
  have hwc : jsWordCount sampleTranscript = 10 := by decide
  have hsc : sentenceCount sampleTranscript = 3 := by decide
  have hkm : keywordMatchCount sampleTranscript "cats" = 0 := by decide
  have htk : (topicKeywordsOf "cats").length = 1 := by decide
  have hedu : (eduPatterns.filter fun alts => matchesAny sampleTranscript alts).length = 1 := by
    decide
  unfold analyzeContentLocally
  rw [if_neg hne]
  norm_num [sampleSession, hwc, hsc, hkm, htk, hedu, clamp01, min_def, max_def]

lemma localFeedback_ne_default (q : ℚ) :
    localFeedback q ≠ "Unable to complete full evaluation due to technical issues." := by
  unfold localFeedback
  split_ifs <;> decide

lemma analyzeContentLocally_feedback_ne_default (sd : SessionData) :
    (analyzeContentLocally sd).feedback ≠
      "Unable to complete full evaluation due to technical issues." := by
  unfold analyzeContentLocally
  split
  · decide
  · exact localFeedback_ne_default _

/-- C1 (counterexample): on the single-frame history `[{happy: 0}]` the
source function returns 0 — the frame counts as valid because it has a
key, and its engagement is 0 — while the claim's reading (validity =
at least one non-zero emotion value) would discard the frame and return
the 0.5 default. -/
theorem calculateFaceEngagement_zero_frame_counterexample :
    calculateFaceEngagement [[("happy", 0)]] = 0 ∧
    faceEngagementClaim [[("happy", 0)]] = 0.5 ∧
    calculateFaceEngagement [[("happy", 0)]] ≠ faceEngagementClaim [[("happy", 0)]] := by
  have h1 : calculateFaceEngagement [[("happy", 0)]] = 0 := by
    unfold calculateFaceEngagement
    norm_num [frameEngagement_happy0]
  have h2 : faceEngagementClaim [[("happy", 0)]] = 0.5 := by
    unfold faceEngagementClaim
    norm_num
  refine ⟨h1, h2, ?_⟩
  rw [h1, h2]
  norm_num

/-- C1 (amended): `calculateFaceEngagement` equals the arithmetic mean of
`frameEngagement` over exactly those frames that have at least one
emotion KEY (a non-empty frame object, even if all its values are 0),
and returns 0.5 when there is no such frame — in particular for the
empty sequence. -/
theorem calculateFaceEngagement_eq_amended (emotions : List EmotionFrame) :
    calculateFaceEngagement emotions = faceEngagementAmended emotions := by
  unfold calculateFaceEngagement faceEngagementAmended
  cases emotions with
  | nil => simp
  | cons e rest =>
    rw [if_neg (by simp)]
    rw [faceFold_eq]
    simp

/-- C2: `calculateOverallScore` is exactly the fixed convex combination
`faceEngagement*0.2 + voiceClarity*0.25 + contentQuality*0.35 +
interactionScore*0.2` with no further clamping; it equals 1 when all
four inputs are 1, and lies in [0,1] whenever all four inputs do. -/
theorem calculateOverallScore_spec :
    (∀ f v c i : ℚ,
      calculateOverallScore f v c i = f * 0.2 + v * 0.25 + c * 0.35 + i * 0.2) ∧
    calculateOverallScore 1 1 1 1 = 1 ∧
    ∀ f v c i : ℚ, 0 ≤ f → f ≤ 1 → 0 ≤ v → v ≤ 1 → 0 ≤ c → c ≤ 1 → 0 ≤ i → i ≤ 1 →
      0 ≤ calculateOverallScore f v c i ∧ calculateOverallScore f v c i ≤ 1 := by
  refine ⟨fun f v c i => rfl, by norm_num [calculateOverallScore], ?_⟩
  intro f v c i hf0 hf1 hv0 hv1 hc0 hc1 hi0 hi1
  unfold calculateOverallScore
  constructor <;> nlinarith

/-- C2 (witness): the bounds part of `calculateOverallScore_spec`
instantiated at the concrete input (1, 0, 1, 0). -/
theorem calculateOverallScore_spec_witness :
    0 ≤ calculateOverallScore 1 0 1 0 ∧ calculateOverallScore 1 0 1 0 ≤ 1 :=
  calculateOverallScore_spec.2.2 1 0 1 0 (by norm_num) (by norm_num) (by norm_num)
    (by norm_num) (by norm_num) (by norm_num) (by norm_num) (by norm_num)

/-- C3 (counterexample): on the fixed transcript with topic "cats" the
keyword-match count is 0, not 1 — the rule checks whether the whole
keyword "cats" occurs as a substring of the lowercased transcript, and
it does not — and the 3 sentences earn no structure bonus (the bonus
needs strictly more than 3): the local score is 0.35, with no relevance
contribution and no 0.1 bonus. -/
theorem analyzeContentLocally_sample_counterexample :
    keywordMatchCount sampleTranscript "cats" ≠ 1 ∧
    keywordMatchCount sampleTranscript "cats" = 0 ∧
    sentenceCount sampleTranscript = 3 ∧
    (analyzeContentLocally sampleSession).score = 0.35 :=
  ⟨by decide, by decide, by decide, analyzeContentLocally_sample_score⟩

/-- C3 (amended): on the fixed transcript with topic "cats" the local
scorer counts exactly zero topic-keyword matches (relevanceScore =
0/1 = 0), the sentence count is 3, which does not trigger the +0.1
structure bonus (it requires more than 3 sentences), and the resulting
score decomposes as base 0.5 − 0.2 short-word-count penalty + 0·0.3
relevance + 0.05 for the one educational pattern ("because"). -/
theorem analyzeContentLocally_sample_amended :
    keywordMatchCount sampleTranscript "cats" = 0 ∧
    sentenceCount sampleTranscript = 3 ∧
    (analyzeContentLocally sampleSession).score = 0.5 - 0.2 + (0 : ℚ) * 0.3 + 0.05 :=
  ⟨by decide, by decide, by
    rw [analyzeContentLocally_sample_score]
    norm_num⟩

/-- C4: when a generative-AI handle is present, the transcript is
non-empty, and the remote content-analysis call throws, `evaluateSession`
uses the local analyzer's score, feedback and suggestions for the
content component, keeps the other already-computed component scores,
and does not return the fixed all-0.5 default-metrics object. -/
theorem evaluateSession_remote_failure_uses_local (sd : SessionData) (err : String)
    (h : sd.transcript ≠ "") :
    (evaluateSession sd true (.error err)).contentQuality = (analyzeContentLocally sd).score ∧
    (evaluateSession sd true (.error err)).feedback = (analyzeContentLocally sd).feedback ∧
    (evaluateSession sd true (.error err)).suggestions = (analyzeContentLocally sd).suggestions ∧
    (evaluateSession sd true (.error err)).faceEngagement = calculateFaceEngagement sd.emotions ∧
    (evaluateSession sd true (.error err)).voiceClarity =
      calculateVoiceClarity sd.voiceQualities ∧
    (evaluateSession sd true (.error err)).interactionScore = calculateInteractionScore sd ∧
    evaluateSession sd true (.error err) ≠ getDefaultMetrics := by
  have hcond : (true = true ∧ sd.transcript ≠ "") := ⟨rfl, h⟩
  have hE : evaluateSession sd true (.error err) =
      { faceEngagement := calculateFaceEngagement sd.emotions
        voiceClarity := calculateVoiceClarity sd.voiceQualities
        contentQuality := (analyzeContentLocally sd).score
        interactionScore := calculateInteractionScore sd
        overallScore := calculateOverallScore (calculateFaceEngagement sd.emotions)
          (calculateVoiceClarity sd.voiceQualities) ((analyzeContentLocally sd).score)
          (calculateInteractionScore sd)
        feedback := (analyzeContentLocally sd).feedback
        suggestions := (analyzeContentLocally sd).suggestions } := by
    unfold evaluateSession
    rw [if_pos hcond]
  refine ⟨by rw [hE], by rw [hE], by rw [hE], by rw [hE], by rw [hE], by rw [hE], ?_⟩
  intro hEq
  have hfb := congrArg EvaluationMetrics.feedback hEq
  rw [hE] at hfb
  exact analyzeContentLocally_feedback_ne_default sd hfb

/-- C4 (witness): `evaluateSession_remote_failure_uses_local` at the
concrete sample session and a concrete thrown transport error. -/
theorem evaluateSession_remote_failure_uses_local_witness :
    (evaluateSession sampleSession true (.error "network failure")).contentQuality =
      (analyzeContentLocally sampleSession).score ∧
    (evaluateSession sampleSession true (.error "network failure")).feedback =
      (analyzeContentLocally sampleSession).feedback ∧
    (evaluateSession sampleSession true (.error "network failure")).suggestions =
      (analyzeContentLocally sampleSession).suggestions ∧
    (evaluateSession sampleSession true (.error "network failure")).faceEngagement =
      calculateFaceEngagement sampleSession.emotions ∧
    (evaluateSession sampleSession true (.error "network failure")).voiceClarity =
      calculateVoiceClarity sampleSession.voiceQualities ∧
    (evaluateSession sampleSession true (.error "network failure")).interactionScore =
      calculateInteractionScore sampleSession ∧
    evaluateSession sampleSession true (.error "network failure") ≠ getDefaultMetrics :=
  evaluateSession_remote_failure_uses_local sampleSession "network failure" (by decide)

/-- C5: `calculateInteractionScore` equals its reference definition — 0
when the transcript is empty or the duration is 0, otherwise
`wpmScore(wordCount/duration*60)*0.6 + min(1, patternMatchCount/10)*0.4`
with the bands evaluated narrowest first — and the band function gives
1.0 at wpm = 150. -/
theorem calculateInteractionScore_eq_spec :
    (∀ sd : SessionData, calculateInteractionScore sd = interactionScoreSpec sd) ∧
    wpmScoreSpec 150 = 1 := by
  refine ⟨fun sd => rfl, by norm_num [wpmScoreSpec]⟩

/-- C6: on an empty transcript the local analyzer returns the fixed
no-speech response (score 0.2, the fixed feedback string, exactly the
two fixed suggestions), and `evaluateSession` returns that content
component for every generative-AI configuration and every remote
outcome, because remote mode is only entered for a non-empty
transcript. -/
theorem empty_transcript_no_speech (sd : SessionData) (hasGenAI : Bool)
    (remote : Except String ContentAnalysis) (h : sd.transcript = "") :
    analyzeContentLocally sd =
      { score := 0.2
        feedback := "No speech detected during the session."
        suggestions := ["Ensure microphone is working", "Speak clearly and loudly"] } ∧
    (evaluateSession sd hasGenAI remote).contentQuality = 0.2 ∧
    (evaluateSession sd hasGenAI remote).feedback =
      "No speech detected during the session." ∧
    (evaluateSession sd hasGenAI remote).suggestions =
      ["Ensure microphone is working", "Speak clearly and loudly"] := by
  have hcond : ¬(hasGenAI = true ∧ sd.transcript ≠ "") := fun hc => hc.2 h
  have hLocal : analyzeContentLocally sd =
      { score := 0.2
        feedback := "No speech detected during the session."
        suggestions := ["Ensure microphone is working", "Speak clearly and loudly"] } := by
    unfold analyzeContentLocally
    rw [if_pos h]
  have hq : (evaluateSession sd hasGenAI remote).contentQuality =
      (analyzeContentLocally sd).score := by
    unfold evaluateSession
    rw [if_neg hcond]
  have hf : (evaluateSession sd hasGenAI remote).feedback =
      (analyzeContentLocally sd).feedback := by
    unfold evaluateSession
    rw [if_neg hcond]
  have hs : (evaluateSession sd hasGenAI remote).suggestions =
      (analyzeContentLocally sd).suggestions := by
    unfold evaluateSession
    rw [if_neg hcond]
  refine ⟨hLocal, ?_, ?_, ?_⟩
  · rw [hq, hLocal]
  · rw [hf, hLocal]
  · rw [hs, hLocal]

/-- C6 (witness): `empty_transcript_no_speech` at the concrete
empty-transcript session, with a generative-AI handle present and a
successful remote outcome available — which is still ignored. -/
theorem empty_transcript_no_speech_witness :
    analyzeContentLocally emptyTranscriptSession =
      { score := 0.2
        feedback := "No speech detected during the session."
        suggestions := ["Ensure microphone is working", "Speak clearly and loudly"] } ∧
    (evaluateSession emptyTranscriptSession true
        (.ok { score := 0.9, feedback := "great", suggestions := [] })).contentQuality = 0.2 ∧
    (evaluateSession emptyTranscriptSession true
        (.ok { score := 0.9, feedback := "great", suggestions := [] })).feedback =
      "No speech detected during the session." ∧
    (evaluateSession emptyTranscriptSession true
        (.ok { score := 0.9, feedback := "great", suggestions := [] })).suggestions =
      ["Ensure microphone is working", "Speak clearly and loudly"] :=
  empty_transcript_no_speech emptyTranscriptSession true
    (.ok { score := 0.9, feedback := "great", suggestions := [] }) rfl

/-- C7: for every emotion frame whose seven emotion values all lie in
[0,1], both the live per-frame formula (`calculateEngagementScore`) and
the per-session per-frame formula (`frameEngagement`) return a value in
[0,1] — both end in the clamp `Math.max(0, Math.min(1, ·))`. -/
theorem engagement_formulas_in_unit_interval (e : EmotionFrame)
    (_h : ∀ k ∈ emotionKeys, 0 ≤ getE e k ∧ getE e k ≤ 1) :
    (0 ≤ calculateEngagementScore e ∧ calculateEngagementScore e ≤ 1) ∧
    (0 ≤ frameEngagement e ∧ frameEngagement e ≤ 1) :=
  ⟨⟨clamp01_nonneg _, clamp01_le_one _⟩, ⟨clamp01_nonneg _, clamp01_le_one _⟩⟩

/-- C7 (witness): `engagement_formulas_in_unit_interval` at the concrete
frame `{happy: 1, sad: 0}`. -/
theorem engagement_formulas_in_unit_interval_witness :
    (0 ≤ calculateEngagementScore [("happy", 1), ("sad", 0)] ∧
      calculateEngagementScore [("happy", 1), ("sad", 0)] ≤ 1) ∧
    (0 ≤ frameEngagement [("happy", 1), ("sad", 0)] ∧
      frameEngagement [("happy", 1), ("sad", 0)] ≤ 1) :=
  engagement_formulas_in_unit_interval [("happy", 1), ("sad", 0)] (by decide)

/-- C8: when audio decoding fails, `analyzeVoiceQuality` returns the
sentinel sample `{clarity: 0, score: "Error", volume: 0, confidence: 0}`
instead of propagating the failure (the model is a total function of the
decode outcome). -/
theorem analyzeVoiceQuality_decode_failure (sqrtQ : ℚ → ℚ) (err : String) :
    analyzeVoiceQuality sqrtQ (.error err) =
      { clarity := 0, score := "Error", volume := 0, confidence := 0 } := rfl

/-- C9: `calculateVoiceClarity` returns exactly 0.5 on the empty sample
sequence. -/
theorem calculateVoiceClarity_empty : calculateVoiceClarity [] = 0.5 := rfl

/-- C10: the `VoiceQuality` record produced by `analyzeVoiceQuality`
always satisfies `confidence = clarity` — on a successful decode the
confidence field is assigned the combined clarity score, and on the
error sentinel both are 0. -/
theorem analyzeVoiceQuality_confidence_eq_clarity (sqrtQ : ℚ → ℚ)
    (decoded : Except String (List ℚ)) :
    (analyzeVoiceQuality sqrtQ decoded).confidence =
      (analyzeVoiceQuality sqrtQ decoded).clarity := by
  cases decoded <;> rfl
